import Mathlib

/-!
Verification of the playlist-to-library synchronization pipeline of
`app.py` (Better Spotify).  The Python code is shallowly embedded:
Python strings are Lean `String`s with hand-rolled, kernel-reducible
models of the `str` methods the code uses (`strip`, `split`,
`startswith`, `endswith`, `in`, `join`), and the external collaborators
(Spotify HTTP responses, the yt-dlp downloader, the B2/S3 object store,
the environment and secret stores) are passed in as explicit data.
-/

set_option autoImplicit false

namespace BetterSpotify

/-! ## Python string primitives -/

/-- Whitespace characters removed by Python's `str.strip()` (ASCII part). -/
def isPySpace (c : Char) : Bool :=
  c = ' ' || c = '\t' || c = '\n' || c = '\r' || c = '\x0b' || c = '\x0c'

/-- Model of Python `s.strip()`: drop leading and trailing whitespace. -/
def pyStrip (s : String) : String :=
  (((s.toList.dropWhile isPySpace).reverse.dropWhile isPySpace).reverse).asString

/-- Split a character list at every occurrence of `c`, Python
`str.split(sep)` semantics (empty pieces are kept; `[]` gives `[[]]`). -/
def splitList (c : Char) : List Char → List (List Char)
  | [] => [[]]
  | x :: xs =>
    let r := splitList c xs
    if x = c then [] :: r
    else
      match r with
      | [] => [[x]]
      | h :: t => (x :: h) :: t

/-- Model of Python `s.split(c)` for a one-character separator. -/
def splitOnChar (c : Char) (s : String) : List String :=
  (splitList c s.toList).map List.asString

/-- Model of Python `needle in hay` (substring test). -/
def pyIn (needle hay : String) : Bool :=
  hay.toList.tails.any (fun t => needle.toList.isPrefixOf t)

/-- Model of Python `s.startswith(pre)`. -/
def pyStartsWith (pre s : String) : Bool :=
  pre.toList.isPrefixOf s.toList

/-- Model of Python `s.endswith(suf)`. -/
def pyEndsWith (suf s : String) : Bool :=
  suf.toList.isSuffixOf s.toList

/-- Model of Python `sep.join(xs)`. -/
def pyJoinStr (sep : String) : List String → String
  | [] => ""
  | [x] => x
  | x :: xs => x ++ sep ++ pyJoinStr sep xs

/-- Model of `os.path.basename` (POSIX): the part after the last `/`,
i.e. the last `/`-separated segment. -/
def pyBasename (p : String) : String :=
  (splitOnChar '/' p).getLastD ""

/-- Model of `os.path.join a b` (POSIX, two arguments). -/
def pyJoin (a b : String) : String :=
  if pyStartsWith "/" b then b
  else if a = "" || pyEndsWith "/" a then a ++ b
  else a ++ "/" ++ b

/-! ## Folder-name sanitization (tab 1 download handler, `app.py` line 376)

`safe_name = "".join(c for c in folder_name if c.isalnum() or c in ' -_').strip()`

`c.isalnum()` is modelled by `Char.isAlphanum` (ASCII alphanumerics;
the claims only concern ASCII inputs). -/

def sanitize (folder_name : String) : String :=
  pyStrip ((folder_name.toList.filter
    (fun c => c.isAlphanum || c = ' ' || c = '-' || c = '_')).asString)

/-! ## Playlist-id extraction (`extract_playlist_id`, `app.py` lines 170-177) -/

/-- The `/`-separated segments of the part of the URL before the first
`?`, after stripping surrounding whitespace — exactly the list the code
iterates over: `playlist_url.strip().split('?')[0]` then `.split('/')`. -/
def urlParts (playlist_url : String) : List String :=
  splitOnChar '/' ((splitOnChar '?' (pyStrip playlist_url)).headD "")

/-- Model of `extract_playlist_id`: return the first `/`-separated segment of
length 22 of the pre-query part of the URL, else raise `ValueError`. -/
def extract_playlist_id (playlist_url : String) : Except String String :=
  match (urlParts playlist_url).find? (fun p => p.length = 22) with
  | some p => .ok p
  | none => .error "No se pudo extraer el ID de la playlist"

/-! ## Spotify track resolution (`get_playlist_tracks`, `app.py` lines 179-204)

The paginated tracks endpoint is modelled by a `PageChain`: each request
either fails with an HTTP status (`raise_for_status`), or returns a page
of items together with either a next-page pointer (`page`) or a null
`next` (`last`).  An item's `track` field is `none` when the JSON value
is missing, `null` or the empty object (all falsy under `if track:`). -/

/-- One entry of a page's `items`, after field access: `name` is
`track.get('name', '')` and `artists` is
`[a.get('name', '') for a in track.get('artists', [])]`. -/
structure SpotTrack where
  name : String
  artists : List String
  deriving DecidableEq, Repr

/-- The loop body of `get_playlist_tracks` for one item: keep the entry
iff the track object is truthy, its name is non-empty, and its artist
list is non-empty, rendering it as `f"{name} - {', '.join(artists)}"`. -/
def renderItem : Option SpotTrack → Option String
  | none => none
  | some t =>
    if t.name ≠ "" ∧ t.artists ≠ [] then
      some (t.name ++ " - " ++ pyJoinStr ", " t.artists)
    else none

/-- The sequence of responses of the tracks endpoint along its
`next`-pointer chain. -/
inductive PageChain where
  /-- A request that fails: `response.raise_for_status()` raises. -/
  | fail (status : ℕ)
  /-- A successful page whose `next` field is null (loop ends). -/
  | last (items : List (Option SpotTrack))
  /-- A successful page with a next page. -/
  | page (items : List (Option SpotTrack)) (next : PageChain)
  deriving DecidableEq, Repr

/-- All items of a chain, in request order across pages (pages that
were never reached because of an earlier failure contribute nothing). -/
def chainItems : PageChain → List (Option SpotTrack)
  | .fail _ => []
  | .last items => items
  | .page items next => items ++ chainItems next

/-- Does every page request of the chain succeed? -/
def chainOk : PageChain → Bool
  | .fail _ => false
  | .last _ => true
  | .page _ next => chainOk next

/-- The HTTP status of the first failing page request, if any. -/
def chainFirstFail : PageChain → Option ℕ
  | .fail s => some s
  | .last _ => none
  | .page _ next => chainFirstFail next

/-- Errors escaping the resolver (the Python exceptions, by origin). -/
inductive SyncErr where
  /-- A raised `raise_for_status` on the token endpoint (`get_spotify_access_token`). -/
  | authError (status : ℕ)
  /-- A raised `ValueError` from `extract_playlist_id`. -/
  | invalidReference
  /-- A raised `raise_for_status` on a tracks-endpoint page. -/
  | upstreamError (status : ℕ)
  deriving DecidableEq, Repr

/-- The `while url:` loop of `get_playlist_tracks`: one request per
chain node, appending the filtered, rendered items of each page to the
accumulator, until a failure or a null `next`. -/
def resolvePages : PageChain → List String → Except SyncErr (List String)
  | .fail s, _ => .error (.upstreamError s)
  | .last items, acc => .ok (acc ++ items.filterMap renderItem)
  | .page items next, acc => resolvePages next (acc ++ items.filterMap renderItem)

/-- Model of `get_playlist_tracks`: obtain the token (modelled by the token
endpoint's outcome `token`), extract the playlist id from the URL, then
page through the chain.  Any raised exception is the `Except.error`. -/
def get_playlist_tracks (token : Except ℕ Unit) (playlist_url : String)
    (chain : PageChain) : Except SyncErr (List String) :=
  match token with
  | .error s => .error (.authError s)
  | .ok _ =>
    match extract_playlist_id playlist_url with
    | .error _ => .error .invalidReference
    | .ok _ => resolvePages chain []

/-! ## Configuration lookup (`get_secret`, `app.py` lines 13-42)

`env` models `os.getenv`; `sts` models `st.secrets` (`none` = the
lookup raises `KeyError`/`FileNotFoundError`); `fileStore` models the
`/etc/secrets/secrets.toml` file (`none` = the file is absent or
unreadable, `some m` = its parsed key/value table). -/

def get_secret (env sts : String → Option String)
    (fileStore : Option (String → Option String))
    (key : String) (dflt : Option String) : Option String :=
  let fromFile : Option String :=
    match fileStore with
    | some m =>
      match m key with
      | some v => some v
      | none => dflt
    | none => dflt
  let fromSts : Option String :=
    match sts key with
    | some v => some v
    | none => fromFile
  match env key with
  | some v => if v = "" then fromSts else some v
  | none => fromSts

/-- Modelled from the spec (amended): configuration lookup consults the
environment first — an environment value that is unset *or empty* is
treated as absent — then the local secrets store, then the file-based
secrets store, returning the first value found, else the default. -/
def lookupSpec (env sts : String → Option String)
    (fileStore : Option (String → Option String))
    (key : String) (dflt : Option String) : Option String :=
  match (env key).filter (fun v => v ≠ "") with
  | some v => some v
  | none =>
    match sts key with
    | some v => some v
    | none =>
      match fileStore with
      | some m =>
        match m key with
        | some v => some v
        | none => dflt
      | none => dflt

/-- The gate secret of `check_access` (`app.py` line 58):
`get_secret("ACCESS_CODE", "mi_codigo_secreto_123")`. -/
def gateSecret (env sts : String → Option String)
    (fileStore : Option (String → Option String)) : Option String :=
  get_secret env sts fileStore "ACCESS_CODE" (some "mi_codigo_secreto_123")

/-! ## Backblaze B2 object store (`app.py` lines 115-147)

The bucket is modelled as an association list from object keys to
object bytes, in the backend's listing order.  A put with an existing
key replaces that object's bytes (S3 `PutObject` semantics, on which
`b2.upload_file` relies); a put with a fresh key appends. -/

/-- Object bodies, abstracted to lists of bytes. -/
abbrev Bytes : Type := List ℕ

/-- A bucket: keys with their bytes, in backend order. -/
abbrev Bucket : Type := List (String × Bytes)

/-- S3 `PutObject`: replace the bytes of the (first) object with this
key, or append a new object if the key is absent. -/
def b2Put (key : String) (content : Bytes) : Bucket → Bucket
  | [] => [(key, content)]
  | (k, v) :: rest =>
    if k = key then (key, content) :: rest else (k, v) :: b2Put key content rest

/-- S3 `GetObject` (by key): the bytes stored under `key`, if any. -/
def b2Lookup (key : String) : Bucket → Option Bytes
  | [] => none
  | (k, v) :: rest => if k = key then some v else b2Lookup key rest

/-- The keys a `ListObjectsV2(Prefix=pre)` request returns, in backend
order: all keys of the bucket starting with `pre`. -/
def listObjectsV2Keys (bucket : Bucket) (pre : String) : List String :=
  (bucket.map Prod.fst).filter (fun k => pyStartsWith pre k)

/-- Model of `upload_song_to_b2`: compute `key = f"{playlist_name}/{filename}"`
with `filename = os.path.basename(file_path)`, upload the file's bytes
under that key, and return the key together with the updated bucket. -/
def upload_song_to_b2 (bucket : Bucket) (file_path : String)
    (playlist_name : String) (content : Bytes) : String × Bucket :=
  let filename := pyBasename file_path
  let key := playlist_name ++ "/" ++ filename
  (key, b2Put key content bucket)

/-- One entry of `list_songs_in_playlist`'s result
(`{'key': key, 'name': song_name}`). -/
structure SongEntry where
  key : String
  name : String
  deriving DecidableEq, Repr

/-- Model of `list_songs_in_playlist`: list the bucket under
`Prefix=f"{playlist_name}/"`, keep the keys ending in `".mp3"`, and
name each entry by the key's last `/`-separated segment
(`key.split('/')[-1]`). -/
def list_songs_in_playlist (bucket : Bucket) (playlist_name : String) :
    List SongEntry :=
  (listObjectsV2Keys bucket (playlist_name ++ "/")).filterMap fun key =>
    if pyEndsWith ".mp3" key then
      some ⟨key, (splitOnChar '/' key).getLastD ""⟩
    else none

/-! ## Audio fetcher (`download_song`, `app.py` lines 209-234)

The yt-dlp invocation is external; its observable effect is the
contents of the destination directory after the download attempt,
passed in as `listing` (the `os.listdir(output_path)` result, in
directory order).  The function's own logic is the query it builds and
the scan for the first `.mp3` entry. -/

def download_song (song_name : String) (output_path : String)
    (listing : List String) : String × Option String :=
  let search_query := "ytsearch1:" ++ song_name
  (search_query,
    match listing.find? (fun f => pyEndsWith ".mp3" f) with
    | some f => some (pyJoin output_path f)
    | none => none)

/-! ## The sync pipeline (tab 1 download handler, `app.py` lines 367-402) -/

/-- The outcome of one press of the download button. -/
inductive Outcome where
  /-- The branch `st.error("Introduce la URL de la playlist")`. -/
  | errNoUrl
  /-- The branch `st.error("Introduce un nombre para la carpeta")`. -/
  | errNoFolder
  /-- The branch `st.error("URL no valida...")`. -/
  | errBadUrl
  /-- The `except` branch: an exception escaped, shown as one message;
  no track loop iteration ran before it. -/
  | failure (e : SyncErr)
  /-- The run completed: the sanitized folder name, the keys uploaded
  to B2 in order, and the progress values reported in order. -/
  | success (safe : String) (writes : List String) (progress : List ℚ)
  deriving DecidableEq, Repr

/-- The loop body's upload decision for one track: the key written when
`downloaded` is truthy and `os.path.exists(downloaded)` holds
(`if downloaded and os.path.exists(downloaded)`), else `none` (the
track is skipped without surfacing anything). -/
def trackWrite (fetch : String → Option String) (ex : String → Bool)
    (safe : String) (song : String) : Option String :=
  match fetch song with
  | some p => if p ≠ "" ∧ ex p = true then some (safe ++ "/" ++ pyBasename p) else none
  | none => none

/-- The `for i, song in enumerate(canciones)` loop: each iteration
fetches into a fresh scoped temporary directory, uploads when the fetch
produced a usable existing path, and reports `(i+1)/n` afterwards. -/
def syncLoop (fetch : String → Option String) (ex : String → Bool)
    (safe : String) (n : ℕ) (i : ℕ) :
    List String → List String × List ℚ
  | [] => ([], [])
  | song :: rest =>
    let w : List String :=
      match trackWrite fetch ex safe song with
      | some key => [key]
      | none => []
    let r := syncLoop fetch ex safe n (i + 1) rest
    (w ++ r.1, ((i : ℚ) + 1) / (n : ℚ) :: r.2)

/-- The download-button handler of tab 1: input validation, folder-name
sanitization, track resolution, then the per-track loop, with the whole
`try` block's exceptions surfaced as a single `failure`.  `fetch` gives
`download_song`'s result for each track label in its iteration's
temporary directory and `ex` models `os.path.exists`. -/
def tab1_download (playlist_url folder_name : String)
    (token : Except ℕ Unit) (chain : PageChain)
    (fetch : String → Option String) (ex : String → Bool) : Outcome :=
  if playlist_url = "" then .errNoUrl
  else if pyStrip folder_name = "" then .errNoFolder
  else if pyIn "spotify.com/playlist" playlist_url = false then .errBadUrl
  else
    let safe := sanitize folder_name
    match get_playlist_tracks token playlist_url chain with
    | .error e => .failure e
    | .ok canciones =>
      let r := syncLoop fetch ex safe canciones.length 0 canciones
      .success safe r.1 r.2

/-- The B2 keys written by an outcome (a `failure` happens during
resolution, before the loop, so nothing has been written). -/
def writesOf : Outcome → List String
  | .success _ writes _ => writes
  | _ => []

/-- The sequence of progress values the loop reports for an `n`-track
playlist: `(i+1)/n` for `i = 0, …, n-1`. -/
def progressList (n : ℕ) : List ℚ :=
  (List.range n).map (fun i : ℕ => ((i : ℚ) + 1) / (n : ℚ))

/-! ## Helper lemmas -/

theorem toList_asString (l : List Char) : (List.asString l).toList = l := rfl

theorem mem_of_mem_pyStrip {c : Char} {s : String} (h : c ∈ (pyStrip s).toList) :
    c ∈ s.toList := by
  simp only [pyStrip, toList_asString, List.mem_reverse] at h
  have h2 := (List.dropWhile_sublist isPySpace).subset h
  rw [List.mem_reverse] at h2
  exact (List.dropWhile_sublist isPySpace).subset h2

theorem find?_append_cons (p : String → Bool) (pre : List String) (x : String)
    (post : List String) (hpre : ∀ s ∈ pre, p s = false) (hx : p x = true) :
    (pre ++ x :: post).find? p = some x := by
  induction pre with
  | nil => simp [List.find?_cons_of_pos, hx]
  | cons a l ih =>
    have ha : p a = false := hpre a (by simp)
    simpa [List.find?_cons_of_neg, ha] using ih (fun s hs => hpre s (by simp [hs]))

/-! ## Claim C1 -/

/-- C1, counterexample: with folder name `"###"` (all-invalid characters,
sanitized result empty), a valid playlist URL and a one-track playlist,
the handler does **not** fail: it completes the run, storing the track
under the empty folder name (key `"/song.mp3"`) and reaching progress
`1/1`.  The only emptiness check (`if not folder_name.strip()`) sees the
raw `"###"`, which is non-empty. -/
theorem C1_counterexample :
    sanitize "###" = "" ∧
    tab1_download "https://open.spotify.com/playlist/37i9dQZF1DXcBWIGoYBM5M"
      "###" (.ok ()) (.last [some ⟨"Song", ["Artist"]⟩])
      (fun _ => some "/tmp/x/song.mp3") (fun _ => true) =
    .success "" ["/song.mp3"] (progressList 1) :=
  ⟨rfl, rfl⟩

set_option maxHeartbeats 1600000 in
/-- C1 (amended): for every sync run the folder name is sanitized by
keeping only alphanumeric, space, `-` and `_` characters (and trimming
surrounding whitespace), so `"My Mix! #1"` yields `"My Mix 1"`; but when
the sanitized result is empty (input `"###"`) the sync does **not**
fail — no `InvalidInputError` exists — and the run proceeds, processing
every track under the empty folder name. -/
theorem C1_folder_sanitization :
    (∀ s : String,
      ((sanitize s).toList.all
        (fun c => c.isAlphanum || c = ' ' || c = '-' || c = '_')) = true) ∧
    sanitize "My Mix! #1" = "My Mix 1" ∧
    tab1_download "https://open.spotify.com/playlist/37i9dQZF1DXcBWIGoYBM5M"
      "###" (.ok ()) (.last [some ⟨"Tune", ["Band"]⟩])
      (fun _ => some "/tmp/y/tune.mp3") (fun _ => true) =
    .success (sanitize "###") ["/tune.mp3"] (progressList 1) := by
  have hb : sanitize "My Mix! #1" = "My Mix 1" := by decide
  have hc : sanitize "###" = "" := by decide
  refine ⟨fun s => ?_, hb, ?_⟩
  case refine_2 =>
    rw [hc]
    rfl
  rw [List.all_eq_true]
  intro c hc
  have hmem := mem_of_mem_pyStrip (s := (s.toList.filter
    (fun c => c.isAlphanum || c = ' ' || c = '-' || c = '_')).asString) hc
  rw [toList_asString] at hmem
  exact (List.mem_filter.mp hmem).2

/-! ## Claim C5 -/

/-- C5: for every URL whose pre-query part (the URL with surrounding
whitespace stripped and any trailing `?…` query removed) contains a
22-character slash-delimited segment not preceded by another one,
reference extraction returns exactly that segment; and for every URL
with no 22-character segment it fails with the `ValueError` message
(the spec's `InvalidReferenceError`). -/
theorem C5_extract_playlist_id (u id : String) (pre post : List String)
    (hsplit : urlParts u = pre ++ id :: post)
    (hid : id.length = 22)
    (hpre : ∀ s ∈ pre, s.length ≠ 22) :
    extract_playlist_id u = .ok id ∧
    ∀ v : String, (∀ s ∈ urlParts v, s.length ≠ 22) →
      extract_playlist_id v = .error "No se pudo extraer el ID de la playlist" := by
  constructor
  · unfold extract_playlist_id
    rw [hsplit, find?_append_cons _ _ _ _ (fun s hs => by simpa using hpre s hs)
      (by simpa using hid)]
  · intro v hv
    unfold extract_playlist_id
    rw [List.find?_eq_none.mpr (fun x hx => by simpa using hv x hx)]

/-- C5, witness: a realistic playlist URL with a trailing query string
yields its 22-character id, and a URL with no 22-character segment
yields the error. -/
theorem C5_witness :
    extract_playlist_id
      "https://open.spotify.com/playlist/37i9dQZF1DXcBWIGoYBM5M?si=abc12" =
      .ok "37i9dQZF1DXcBWIGoYBM5M" ∧
    extract_playlist_id "https://example.com/short" =
      .error "No se pudo extraer el ID de la playlist" := by
  have h := C5_extract_playlist_id
    "https://open.spotify.com/playlist/37i9dQZF1DXcBWIGoYBM5M?si=abc12"
    "37i9dQZF1DXcBWIGoYBM5M" ["https:", "", "open.spotify.com", "playlist"] []
    (by decide) (by decide) (by decide)
  exact ⟨h.1, h.2 "https://example.com/short" (by decide)⟩

/-! ## Claim C9 -/

/-- C9, counterexample: the environment is the first source and has a
value for the key (the empty string), yet the lookup returns the local
secrets store's value instead of that first match — strict
first-match-wins fails for empty environment values. -/
theorem C9_counterexample :
    (fun k => if k = "B2_BUCKET" then some "" else none : String → Option String)
      "B2_BUCKET" = some "" ∧
    get_secret (fun k => if k = "B2_BUCKET" then some "" else none)
      (fun k => if k = "B2_BUCKET" then some "bucket-from-secrets" else none)
      none "B2_BUCKET" none = some "bucket-from-secrets" :=
  ⟨rfl, rfl⟩

/-- C9 (amended): for every recognized configuration key, lookup
consults the environment first — where a value that is unset *or empty*
counts as absent — then the local secrets store, then the file-based
secrets store, returning the first match; and the `check_access` gate
secret is this lookup of `ACCESS_CODE` with default
`"mi_codigo_secreto_123"`, used when no source provides a value. -/
theorem C9_secret_lookup_order (env sts : String → Option String)
    (fileStore : Option (String → Option String)) (k : String) (d : Option String) :
    get_secret env sts fileStore k d = lookupSpec env sts fileStore k d ∧
    gateSecret env sts fileStore =
      lookupSpec env sts fileStore "ACCESS_CODE" (some "mi_codigo_secreto_123") := by
  have main : ∀ (k' : String) (d' : Option String),
      get_secret env sts fileStore k' d' = lookupSpec env sts fileStore k' d' := by
    intro k' d'
    unfold get_secret lookupSpec
    rcases henv : env k' with _ | v
    · simp [Option.filter]
    · by_cases hv : v = "" <;> simp [Option.filter, hv]
  exact ⟨main k d, by unfold gateSecret; exact main _ _⟩

/-! ## Claim C10 -/

/-- C10: for every configuration key, an environment variable set to
the empty string is treated as absent — the lookup behaves exactly as
with an unset environment and falls through to the local secrets
store — whereas a value found in the local secrets store (even the
empty string) is returned as-is. -/
theorem C10_empty_env_treated_absent (env sts : String → Option String)
    (fileStore : Option (String → Option String)) (k : String) (d : Option String)
    (henv : env k = some "") :
    get_secret env sts fileStore k d = get_secret (fun _ => none) sts fileStore k d ∧
    ∀ v, sts k = some v → get_secret env sts fileStore k d = some v := by
  constructor
  · unfold get_secret
    rw [henv]
    simp
  · intro v hv
    unfold get_secret
    rw [henv, hv]
    simp

/-- C10, witness: with `SPOTIFY_CLIENT_ID` set to `""` in the
environment and to `""` in the local secrets store, the lookup returns
the store's empty string (it skipped the environment, and the store's
empty value is returned as-is). -/
theorem C10_witness :
    get_secret (fun _ => some "") (fun _ => some "") none
      "SPOTIFY_CLIENT_ID" none = some "" :=
  (C10_empty_env_treated_absent (fun _ => some "") (fun _ => some "") none
    "SPOTIFY_CLIENT_ID" none rfl).2 "" rfl

/-! ## Claims C2 and C4: track resolution -/

theorem resolvePages_ok (c : PageChain) (h : chainOk c = true) (acc : List String) :
    resolvePages c acc = .ok (acc ++ (chainItems c).filterMap renderItem) := by
  induction c generalizing acc with
  | fail s => simp [chainOk] at h
  | last items => simp [resolvePages, chainItems]
  | page items next ih =>
    rw [resolvePages, ih (by simpa [chainOk] using h)]
    simp [chainItems, List.filterMap_append]

theorem resolvePages_fail (c : PageChain) (s : ℕ) (h : chainFirstFail c = some s)
    (acc : List String) : resolvePages c acc = .error (.upstreamError s) := by
  induction c generalizing acc with
  | fail t => simp only [chainFirstFail, Option.some_inj] at h; simp [resolvePages, h]
  | last items => simp [chainFirstFail] at h
  | page items next ih => exact ih (by simpa [chainFirstFail] using h) _

theorem extract_ok_of_mem (url : String) (hurl : ∃ p ∈ urlParts url, p.length = 22) :
    ∃ q, (urlParts url).find? (fun p => p.length = 22) = some q := by
  obtain ⟨p, hp, hlen⟩ := hurl
  have hex : ((urlParts url).find? (fun p => p.length = 22)).isSome := by
    rw [List.find?_isSome]
    exact ⟨p, hp, by simpa using hlen⟩
  exact Option.isSome_iff_exists.mp hex

/-- C2: for every sequence of pages returned by the tracks endpoint (all
of which succeed), resolution returns, in the original API order across
all pages, exactly the entries with a non-empty name and a non-empty
artist list, each rendered as `"title - artist1, artist2"`
(`renderItem`); no entry is dropped for any other reason
(`List.filterMap` keeps everything `renderItem` accepts). -/
theorem C2_track_resolution (token : Except ℕ Unit) (url : String) (chain : PageChain)
    (htoken : token = .ok ()) (hurl : ∃ p ∈ urlParts url, p.length = 22)
    (hchain : chainOk chain = true) :
    get_playlist_tracks token url chain =
      .ok ((chainItems chain).filterMap renderItem) := by
  subst htoken
  obtain ⟨q, hq⟩ := extract_ok_of_mem url hurl
  simp only [get_playlist_tracks, extract_playlist_id, hq]
  simpa using resolvePages_ok chain hchain []

/-- C2, witness: a 3-page chain is resolved in order; the entry with a
falsy track object, the entry with an empty name and the entry with no
artists are dropped, everything else is rendered in order. -/
theorem C2_witness :
    get_playlist_tracks (.ok ())
      "https://open.spotify.com/playlist/37i9dQZF1DXcBWIGoYBM5M"
      (.page [some ⟨"A", ["a1", "a2"]⟩, none]
        (.page [some ⟨"", ["x"]⟩, some ⟨"B", ["b"]⟩]
          (.last [some ⟨"C", []⟩, some ⟨"D", ["d"]⟩]))) =
      .ok ["A - a1, a2", "B - b", "D - d"] := by
  rw [C2_track_resolution (.ok ())
    "https://open.spotify.com/playlist/37i9dQZF1DXcBWIGoYBM5M"
    (.page [some ⟨"A", ["a1", "a2"]⟩, none]
      (.page [some ⟨"", ["x"]⟩, some ⟨"B", ["b"]⟩]
        (.last [some ⟨"C", []⟩, some ⟨"D", ["d"]⟩])))
    rfl ⟨"37i9dQZF1DXcBWIGoYBM5M", by decide, by decide⟩ rfl]
  rfl

/-- C4: when the gate checks pass but some page request during track
resolution fails (`chainFirstFail chain = some s`), the whole resolution
fails and the entire sync aborts with that single terminal error, with
no object written to the store. -/
theorem C4_resolution_failure_aborts (url folder : String) (token : Except ℕ Unit)
    (chain : PageChain) (fetch : String → Option String) (ex : String → Bool) (s : ℕ)
    (h1 : url ≠ "") (h2 : pyStrip folder ≠ "")
    (h3 : pyIn "spotify.com/playlist" url = true)
    (htoken : token = .ok ()) (hurl : ∃ p ∈ urlParts url, p.length = 22)
    (hfail : chainFirstFail chain = some s) :
    tab1_download url folder token chain fetch ex = .failure (.upstreamError s) ∧
    writesOf (tab1_download url folder token chain fetch ex) = [] := by
  subst htoken
  obtain ⟨q, hq⟩ := extract_ok_of_mem url hurl
  have hres : get_playlist_tracks (.ok ()) url chain = .error (.upstreamError s) := by
    simp only [get_playlist_tracks, extract_playlist_id, hq]
    exact resolvePages_fail chain s hfail []
  have hmain : tab1_download url folder (.ok ()) chain fetch ex =
      .failure (.upstreamError s) := by
    simp [tab1_download, h1, h2, h3, hres]
  exact ⟨hmain, by rw [hmain]; rfl⟩

/-- C4, witness: a playlist whose second page returns HTTP 502 aborts
the sync with the upstream error and writes nothing, even though the
first page had a resolvable track and the fetcher would have succeeded. -/
theorem C4_witness :
    tab1_download "https://open.spotify.com/playlist/37i9dQZF1DXcBWIGoYBM5M"
      "Road Trip" (.ok ()) (.page [some ⟨"A", ["x"]⟩] (.fail 502))
      (fun _ => some "/tmp/z/a.mp3") (fun _ => true) =
      .failure (.upstreamError 502) ∧
    writesOf (tab1_download "https://open.spotify.com/playlist/37i9dQZF1DXcBWIGoYBM5M"
      "Road Trip" (.ok ()) (.page [some ⟨"A", ["x"]⟩] (.fail 502))
      (fun _ => some "/tmp/z/a.mp3") (fun _ => true)) = [] :=
  C4_resolution_failure_aborts _ _ _ _ _ _ 502 (by decide) (by decide) (by decide)
    rfl ⟨"37i9dQZF1DXcBWIGoYBM5M", by decide, by decide⟩ rfl

/-! ## Claim C3: the per-track loop -/

theorem syncLoop_eq (fetch : String → Option String) (ex : String → Bool)
    (safe : String) (n : ℕ) (tracks : List String) (i : ℕ) :
    syncLoop fetch ex safe n i tracks =
      (tracks.filterMap (trackWrite fetch ex safe),
       (List.range tracks.length).map
         (fun j : ℕ => ((i : ℚ) + (j : ℚ) + 1) / (n : ℚ))) := by
  induction tracks generalizing i with
  | nil => simp [syncLoop]
  | cons song rest ih =>
    rw [syncLoop, ih (i + 1)]
    refine Prod.ext ?_ ?_
    · cases htw : trackWrite fetch ex safe song <;>
        simp [List.filterMap_cons, htw]
    · simp only [List.length_cons, List.range_succ_eq_map, List.map_cons,
        List.map_map]
      congr 1
      · norm_num
      · congr 1
        funext j
        simp only [Function.comp]
        push_cast
        ring

theorem syncLoop_spec (fetch : String → Option String) (ex : String → Bool)
    (safe : String) (tracks : List String) :
    syncLoop fetch ex safe tracks.length 0 tracks =
      (tracks.filterMap (trackWrite fetch ex safe), progressList tracks.length) := by
  rw [syncLoop_eq]
  congr 1
  unfold progressList
  congr 1
  funext j
  push_cast
  ring

theorem progressList_getLast (n : ℕ) (h : n ≠ 0) :
    (progressList n).getLast? = some 1 := by
  obtain ⟨m, rfl⟩ := Nat.exists_eq_succ_of_ne_zero h
  unfold progressList
  rw [List.range_succ, List.map_append, List.map_singleton,
    List.getLast?_concat]
  have hnz : ((m : ℚ) + 1) ≠ 0 := by positivity
  rw [Option.some_inj]
  push_cast
  rw [div_self hnz]

/-- C3: when the gate checks pass, resolution returns `tracks`
(non-empty), the loop processes the tracks in resolved order; it
uploads exactly the tracks for which the fetcher returned a usable
existing path (`trackWrite`), silently skips the others (the outcome is
still `success`, no error surfaced), and reports progress `(i+1)/n`
after every track, so the last reported progress is `1` whether or not
any track was skipped. -/
theorem C3_sync_loop_behavior (url folder : String) (token : Except ℕ Unit)
    (chain : PageChain) (fetch : String → Option String) (ex : String → Bool)
    (tracks : List String)
    (h1 : url ≠ "") (h2 : pyStrip folder ≠ "")
    (h3 : pyIn "spotify.com/playlist" url = true)
    (hres : get_playlist_tracks token url chain = .ok tracks)
    (hne : tracks ≠ []) :
    tab1_download url folder token chain fetch ex =
      .success (sanitize folder)
        (tracks.filterMap (trackWrite fetch ex (sanitize folder)))
        (progressList tracks.length) ∧
    (progressList tracks.length).getLast? = some 1 := by
  refine ⟨?_, progressList_getLast tracks.length
    (fun h0 => hne (List.length_eq_zero.mp h0))⟩
  simp [tab1_download, h1, h2, h3, hres, syncLoop_spec]

/-- C3, witness: the spec's partial-fetch scenario — a 3-track playlist
where the fetcher returns absent for the second track writes exactly
the first and third tracks, surfaces no error, and the progress still
ends at `1`. -/
theorem C3_witness :
    tab1_download "https://open.spotify.com/playlist/37i9dQZF1DXcBWIGoYBM5M"
      "Mix" (.ok ())
      (.page [some ⟨"A", ["x"]⟩] (.last [some ⟨"B", ["y"]⟩, some ⟨"C", ["z"]⟩]))
      (fun s => if s = "B - y" then none else some ("/t/" ++ s ++ ".mp3"))
      (fun _ => true) =
      .success "Mix" ["Mix/A - x.mp3", "Mix/C - z.mp3"] (progressList 3) ∧
    (progressList 3).getLast? = some 1 := by
  have h := C3_sync_loop_behavior
    "https://open.spotify.com/playlist/37i9dQZF1DXcBWIGoYBM5M" "Mix" (.ok ())
    (.page [some ⟨"A", ["x"]⟩] (.last [some ⟨"B", ["y"]⟩, some ⟨"C", ["z"]⟩]))
    (fun s => if s = "B - y" then none else some ("/t/" ++ s ++ ".mp3"))
    (fun _ => true) ["A - x", "B - y", "C - z"]
    (by decide) (by decide) (by decide) (by rfl) (by decide)
  exact ⟨h.1.trans (by rfl), h.2⟩

/-! ## Claim C6: upload semantics -/

theorem b2Lookup_b2Put (key : String) (content : Bytes) (bucket : Bucket)
    (k : String) :
    b2Lookup k (b2Put key content bucket) =
      if k = key then some content else b2Lookup k bucket := by
  induction bucket with
  | nil =>
    by_cases hk : k = key
    · subst hk; simp [b2Put, b2Lookup]
    · simp [b2Put, b2Lookup, hk, Ne.symm hk]
  | cons kv rest ih =>
    obtain ⟨k0, v0⟩ := kv
    by_cases h0 : k0 = key
    · subst h0
      by_cases hk : k = k0
      · subst hk; simp [b2Put, b2Lookup]
      · simp [b2Put, b2Lookup, hk, Ne.symm hk]
    · simp only [b2Put, if_neg h0, b2Lookup]
      rw [ih]
      split_ifs <;> simp_all

theorem b2Put_length (key : String) (content : Bytes) (bucket : Bucket) :
    (b2Put key content bucket).length =
      if (b2Lookup key bucket).isSome then bucket.length else bucket.length + 1 := by
  induction bucket with
  | nil => simp [b2Put, b2Lookup]
  | cons kv rest ih =>
    obtain ⟨k0, v0⟩ := kv
    by_cases h0 : k0 = key
    · simp [b2Put, b2Lookup, h0]
    · simp only [b2Put, if_neg h0, b2Lookup, List.length_cons, ih]
      split_ifs <;> simp_all

/-- C6: for every bucket, local file path and folder, `writeObject`
stores the file under key `folder ++ "/" ++ basename(localPath)` and
returns that key; afterwards that key holds exactly the uploaded bytes
(replacing any previous object with the same key), every other key is
untouched, and the bucket grows only when the key was absent — an
existing key is overwritten, never duplicated and never an error. -/
theorem C6_upload_overwrites (bucket : Bucket) (path folder : String)
    (content : Bytes) :
    (upload_song_to_b2 bucket path folder content).1 =
      folder ++ "/" ++ pyBasename path ∧
    (∀ k, b2Lookup k (upload_song_to_b2 bucket path folder content).2 =
      if k = folder ++ "/" ++ pyBasename path then some content
      else b2Lookup k bucket) ∧
    (upload_song_to_b2 bucket path folder content).2.length =
      (if (b2Lookup (folder ++ "/" ++ pyBasename path) bucket).isSome
       then bucket.length else bucket.length + 1) :=
  ⟨rfl, fun k => b2Lookup_b2Put _ _ _ k, b2Put_length _ _ _⟩

/-! ## Claim C7: listing a playlist folder -/

/-- C7: for every bucket and folder, `list_songs_in_playlist` returns
an entry `{key, name}` exactly for the objects of the bucket whose key
starts with `folder ++ "/"` and ends with `".mp3"`, with `name` the
last `/`-separated segment of the key; nothing else is included. -/
theorem C7_list_songs_membership (bucket : Bucket) (folder : String)
    (e : SongEntry) :
    e ∈ list_songs_in_playlist bucket folder ↔
      (∃ v : Bytes, (e.key, v) ∈ bucket) ∧
      pyStartsWith (folder ++ "/") e.key = true ∧
      pyEndsWith ".mp3" e.key = true ∧
      e.name = (splitOnChar '/' e.key).getLastD "" := by
  unfold list_songs_in_playlist listObjectsV2Keys
  rw [List.mem_filterMap]
  constructor
  · rintro ⟨key, hkey, hsome⟩
    rw [List.mem_filter] at hkey
    obtain ⟨hmem, hpre⟩ := hkey
    by_cases hmp3 : pyEndsWith ".mp3" key = true
    · rw [if_pos hmp3] at hsome
      obtain rfl : (⟨key, (splitOnChar '/' key).getLastD ""⟩ : SongEntry) = e :=
        Option.some_inj.mp hsome
      obtain ⟨⟨k', v⟩, hkv, rfl⟩ := List.mem_map.mp hmem
      exact ⟨⟨v, hkv⟩, hpre, hmp3, rfl⟩
    · rw [if_neg hmp3] at hsome
      exact Option.noConfusion hsome
  · rintro ⟨⟨v, hv⟩, hpre, hmp3, hname⟩
    refine ⟨e.key, ?_, ?_⟩
    · rw [List.mem_filter]
      exact ⟨List.mem_map.mpr ⟨(e.key, v), hv, rfl⟩, hpre⟩
    · rw [if_pos hmp3]
      cases e with
      | mk k n => simp only at hname; rw [hname]

/-! ## Claim C8: the audio fetcher -/

theorem find?_eq_head?_filter {α : Type} (p : α → Bool) (l : List α) :
    l.find? p = (l.filter p).head? := by
  induction l with
  | nil => rfl
  | cons a t ih =>
    cases h : p a with
    | true =>
      rw [List.find?_cons_of_pos _ h, List.filter_cons, if_pos h]
      rfl
    | false =>
      rw [List.find?_cons_of_neg _ (by simp [h]), List.filter_cons,
        if_neg (by simp [h])]
      exact ih

/-- C8: for every track label, destination directory and directory
listing after the download attempt, the fetcher issues the single
first-result search query `"ytsearch1:" ++ label`, and returns the path
`dir ++ "/" ++ f` of the first directory entry `f` ending in `".mp3"`
(a path inside the destination directory) when one exists, and `none`
otherwise. -/
theorem C8_download_song (song dir : String) (listing : List String)
    (hdir : dir ≠ "" ∧ pyEndsWith "/" dir = false)
    (hfiles : ∀ f ∈ listing, pyStartsWith "/" f = false) :
    (download_song song dir listing).1 = "ytsearch1:" ++ song ∧
    (download_song song dir listing).2 =
      ((listing.filter (fun f => pyEndsWith ".mp3" f)).head?).map
        (fun f => dir ++ "/" ++ f) := by
  refine ⟨rfl, ?_⟩
  cases hfind : listing.find? (fun f => pyEndsWith ".mp3" f) with
  | none =>
    have hh : (listing.filter (fun f => pyEndsWith ".mp3" f)).head? = none := by
      rw [← find?_eq_head?_filter, hfind]
    simp [download_song, hfind, hh]
  | some f =>
    have hf : f ∈ listing := List.mem_of_find?_eq_some hfind
    have h1 : ¬ (pyStartsWith "/" f = true) := by simp [hfiles f hf]
    have h2 : ¬ ((dir = "" || pyEndsWith "/" dir) = true) := by
      simp [hdir.1, hdir.2]
    have hjoin : pyJoin dir f = dir ++ "/" ++ f := by
      rw [pyJoin, if_neg h1, if_neg h2]
    have hh : (listing.filter (fun f => pyEndsWith ".mp3" f)).head? = some f := by
      rw [← find?_eq_head?_filter, hfind]
    simp [download_song, hfind, hh, hjoin]

/-- C8, witness: with directory contents `["cover.jpg", "a.mp3",
"b.mp3"]` after the attempt, the fetcher built exactly the query
`"ytsearch1:A - x"` and returns the first mp3 entry's path inside the
destination directory; a second mp3 is ignored. -/
theorem C8_witness :
    (download_song "A - x" "/tmp/d" ["cover.jpg", "a.mp3", "b.mp3"]).1 =
      "ytsearch1:A - x" ∧
    (download_song "A - x" "/tmp/d" ["cover.jpg", "a.mp3", "b.mp3"]).2 =
      some "/tmp/d/a.mp3" := by
  have h := C8_download_song "A - x" "/tmp/d" ["cover.jpg", "a.mp3", "b.mp3"]
    ⟨by decide, by decide⟩ (by decide)
  exact ⟨h.1, h.2.trans (by rfl)⟩

end BetterSpotify
